import Mathlib

/-!
Shallow embedding of the screenshot service core from `src/screenshot.rs` and
the request layer from `src/http_handler.rs` of the `screenshotapi` repository.

External effects (URL parsing by the `url` crate, filesystem existence checks,
browser process spawning via `headless_chrome`, CDP calls on a tab) are
abstracted as an `Env` oracle recording the outcome of each external step; the
control flow, error construction and event ordering are translated from the
Rust source. Every run additionally returns a trace of the externally visible
events (`Ev`) in the order the code performs them, so that ordering and
resource-lifetime claims can be stated.
-/

/-- Embedding of the Rust enum `ScreenshotError` (screenshot.rs lines 9-21).
Each variant carries the formatted message string. -/
inductive ScreenshotError where
  | BrowserLaunch (msg : String)
  | Navigation (msg : String)
  | Screenshot (msg : String)
  | InvalidUrl (msg : String)
  | ChromeNotFound (msg : String)
  deriving DecidableEq, Repr

/-- Embedding of `headless_chrome::protocol::cdp::Page::CaptureScreenshotFormatOption`
restricted to the variants the repository mentions. -/
inductive CaptureScreenshotFormatOption where
  | Png
  | Jpeg
  deriving DecidableEq, Repr

/-- Externally visible events of one invocation, in the order the Rust code
performs them. `dropBrowser` is the release of the browser process handle:
in the Rust source the `browser` local owns the child process and Rust RAII
drops it at scope exit on every path out of `take_screenshot` after a
successful launch (the `headless_chrome::Browser` drop implementation
terminates the process). -/
inductive Ev where
  | locateCheck (path : String)
  | launchAttempt (n : Nat)
  | retryDelay
  | launched
  | newTab
  | setViewport (width height : Nat)
  | navigate (url : String)
  | waitNavigated
  | settleSleep (ms : Nat)
  | captureCall (fmt : CaptureScreenshotFormatOption)
  | dropBrowser
  deriving DecidableEq, Repr

/-- Oracle for the outcomes of the external steps of one invocation.
For each fallible external call, `none` means the call succeeds and
`some e` means it fails with underlying error text `e`. -/
structure Env where
  /-- Outcome of `url::Url::parse` on a given URL string: `some e` is a parse
  error with message `e`, `none` means the URL parses. -/
  parseUrl : String → Option String
  /-- Filesystem existence (`PathBuf::exists`) for a given path. -/
  fsExists : String → Bool
  /-- Outcome of `LaunchOptions::default_builder()...build()` on attempt `n`. -/
  buildErr : Nat → Option String
  /-- Outcome of `Browser::new(fresh_options)` on attempt `n`. -/
  spawnErr : Nat → Option String
  /-- Outcome of `browser.new_tab()`. -/
  newTabErr : Option String
  /-- Outcome of the `SetDeviceMetricsOverride` CDP call. -/
  setViewportErr : Option String
  /-- Outcome of `tab.navigate_to(url)`. -/
  navigateErr : Option String
  /-- Outcome of `tab.wait_until_navigated()`. -/
  waitNavErr : Option String
  /-- Outcome of `tab.capture_screenshot(...)`. -/
  captureErr : Option String
  /-- Bytes returned by a successful capture. -/
  captureData : List Nat

/-- The fixed ordered path list of `find_chrome_executable`
(screenshot.rs lines 285-288). -/
def chromePaths : List String := ["/opt/chromium/chrome", "/opt/chrome"]

/-- Helper for `find_chrome_executable`: walks the path list in order,
returning the first existing path and the list of paths whose existence was
actually checked (the short-circuit makes later paths unchecked). -/
def findChromeGo (fs : String → Bool) : List String → Option String × List String
  | [] => (none, [])
  | p :: rest =>
    if fs p then (some p, [p])
    else
      let r := findChromeGo fs rest
      (r.1, p :: r.2)

/-- Embedding of `find_chrome_executable` (screenshot.rs lines 284-296):
checks the fixed ordered list for existence and returns the first existing
path, short-circuiting. The second component is the list of checked paths. -/
def find_chrome_executable (fs : String → Bool) : Option String × List String :=
  findChromeGo fs chromePaths

/-- `MIN_SIZE` from `validate_dimension` (screenshot.rs line 144). -/
def MIN_SIZE : Nat := 320

/-- `MAX_SIZE` from `validate_dimension` (screenshot.rs line 145). -/
def MAX_SIZE : Nat := 3840

/-- Embedding of `ScreenshotService::validate_dimension`
(screenshot.rs lines 143-162). Note the Rust code reuses the `InvalidUrl`
error variant for dimension failures. -/
def validate_dimension (value : Nat) (dimension_name : String) :
    Except ScreenshotError Nat :=
  if value < MIN_SIZE then
    .error (.InvalidUrl (dimension_name ++ " must be at least " ++
      toString MIN_SIZE ++ " pixels (got " ++ toString value ++ ")"))
  else if value > MAX_SIZE then
    .error (.InvalidUrl (dimension_name ++ " must be at most " ++
      toString MAX_SIZE ++ " pixels (got " ++ toString value ++ ")"))
  else
    .ok value

/-- Helper for `launch_browser_with_retry`: the `for attempt in 1..=max_retries`
loop (screenshot.rs lines 250-278). `remaining` is the number of loop
iterations left (`max_retries + 1 - attempt`); reaching `0` is loop exit,
which produces the exhaustion error (line 280). A successful `Browser::new`
returns immediately; a failed attempt records `last_error` and sleeps one
second only when `attempt < max_retries` (`remaining > 0` after this one). -/
def launchGo (env : Env) (maxRetries : Nat) :
    Nat → Nat → String → Except String Unit × List Ev
  | 0, _, lastError =>
    (.error ("All " ++ toString maxRetries ++
      " launch attempts failed. Last error: " ++ lastError), [])
  | remaining + 1, attempt, _lastError =>
    match env.buildErr attempt with
    | some e => (.error ("Browser launch failed: " ++ e), [Ev.launchAttempt attempt])
    | none =>
      match env.spawnErr attempt with
      | none => (.ok (), [Ev.launchAttempt attempt])
      | some e =>
        let le := "Attempt " ++ toString attempt ++ ": " ++ e
        let r := launchGo env maxRetries remaining (attempt + 1) le
        (r.1, Ev.launchAttempt attempt ::
          ((if remaining > 0 then [Ev.retryDelay] else []) ++ r.2))

/-- Embedding of `launch_browser_with_retry` (screenshot.rs lines 247-281),
with the spawn outcomes supplied by the oracle. The trace records each launch
attempt and each inter-attempt delay. -/
def launch_browser_with_retry (env : Env) (maxRetries : Nat) :
    Except String Unit × List Ev :=
  launchGo env maxRetries maxRetries 1 ""

/-- Number of launch attempts recorded in a trace. -/
def attemptsOf (tr : List Ev) : Nat :=
  (tr.filter fun ev => match ev with | Ev.launchAttempt _ => true | _ => false).length

/-- Number of inter-attempt delays recorded in a trace. -/
def delaysOf (tr : List Ev) : Nat :=
  (tr.filter fun ev => match ev with | Ev.retryDelay => true | _ => false).length

/-- Embedding of `ScreenshotService::capture_screenshot_internal`
(screenshot.rs lines 164-224): new tab, device-metrics override, navigate,
wait for navigation, optional settle sleep (`if wait_time > 0`), then the
capture call, which always requests `CaptureScreenshotFormatOption::Png`
(line 216). -/
def capture_screenshot_internal (env : Env) (url : String)
    (width height : Nat) (wait_time : Nat) :
    Except ScreenshotError (List Nat) × List Ev :=
  match env.newTabErr with
  | some e => (.error (.Navigation ("Failed to create new tab: " ++ e)), [Ev.newTab])
  | none =>
  match env.setViewportErr with
  | some e => (.error (.Navigation ("Failed to set viewport: " ++ e)),
      [Ev.newTab, Ev.setViewport width height])
  | none =>
  match env.navigateErr with
  | some e => (.error (.Navigation ("Failed to navigate to " ++ url ++ ": " ++ e)),
      [Ev.newTab, Ev.setViewport width height, Ev.navigate url])
  | none =>
  match env.waitNavErr with
  | some e => (.error (.Navigation ("Navigation timeout: " ++ e)),
      [Ev.newTab, Ev.setViewport width height, Ev.navigate url, Ev.waitNavigated])
  | none =>
  let pre := [Ev.newTab, Ev.setViewport width height, Ev.navigate url, Ev.waitNavigated]
  let sleeps := if wait_time > 0 then [Ev.settleSleep wait_time] else []
  match env.captureErr with
  | some e => (.error (.Screenshot ("Screenshot capture failed: " ++ e)),
      pre ++ sleeps ++ [Ev.captureCall CaptureScreenshotFormatOption.Png])
  | none => (.ok env.captureData,
      pre ++ sleeps ++ [Ev.captureCall CaptureScreenshotFormatOption.Png])

/-- Embedding of `ScreenshotService::take_screenshot`
(screenshot.rs lines 41-140): URL validation, executable location, browser
launch with retry (bound 3), dimension validation with defaults 1920/1080,
capture with default wait 1000, and the RAII drop of the browser handle
(`dropBrowser`) at scope exit on every path after a successful launch. -/
def take_screenshot (env : Env) (url : String)
    (width height : Option Nat) (wait_time : Option Nat) :
    Except ScreenshotError (List Nat) × List Ev :=
  match env.parseUrl url with
  | some e => (.error (.InvalidUrl e), [])
  | none =>
  let loc := find_chrome_executable env.fsExists
  let locEvs := loc.2.map Ev.locateCheck
  match loc.1 with
  | none => (.error (.ChromeNotFound "Chrome executable not found"), locEvs)
  | some _chromePath =>
  let launch := launch_browser_with_retry env 3
  match launch.1 with
  | .error e =>
    (.error (.BrowserLaunch ("Browser launch failed after retries: " ++ e)),
      locEvs ++ launch.2)
  | .ok _ =>
  let evs0 := locEvs ++ launch.2 ++ [Ev.launched]
  match validate_dimension ((width.getD 1920)) "width" with
  | .error e => (.error e, evs0 ++ [Ev.dropBrowser])
  | .ok validated_width =>
  match validate_dimension ((height.getD 1080)) "height" with
  | .error e => (.error e, evs0 ++ [Ev.dropBrowser])
  | .ok validated_height =>
  let cap := capture_screenshot_internal env url validated_width validated_height
      (wait_time.getD 1000)
  (cap.1, evs0 ++ cap.2 ++ [Ev.dropBrowser])

/-- Helper for the model of Rust numeric string parsing: consumes decimal
digits, accumulating the value; any non-digit character is a parse failure. -/
def digitsToNat : List Char → Nat → Option Nat
  | [], acc => some acc
  | c :: cs, acc =>
    if c.isDigit then digitsToNat cs (acc * 10 + (c.toNat - 48)) else none

/-- Nonempty all-digit character list to a natural number. -/
def parseNatDigits (cs : List Char) : Option Nat :=
  match cs with
  | [] => none
  | _ => digitsToNat cs 0

/-- Model of Rust `str::parse::<u32>` as used in http_handler.rs lines
111-119: an optional leading plus sign, then one or more decimal digits,
and the value must fit in a `u32`; anything else is `none` (the handler
turns parse errors into `None` via `.ok()`). -/
def parseU32 (s : String) : Option Nat :=
  let cs := match s.data with
    | '+' :: rest => rest
    | cs => cs
  match parseNatDigits cs with
  | some n => if n < 2 ^ 32 then some n else none
  | none => none

/-- Model of Rust `str::parse::<u64>` as used in http_handler.rs lines
121-124, analogous to `parseU32` with the `u64` bound. -/
def parseU64 (s : String) : Option Nat :=
  let cs := match s.data with
    | '+' :: rest => rest
    | cs => cs
  match parseNatDigits cs with
  | some n => if n < 2 ^ 64 then some n else none
  | none => none

/-- Query parameters of one HTTP request, each `none` when absent
(`params.first(...)` in http_handler.rs). -/
structure QueryParams where
  url : Option String
  width : Option String
  height : Option String
  wait : Option String
  format : Option String

/-- Embedding of `handle_screenshot_request` (http_handler.rs lines 99-157):
required `url` parameter, numeric parameters defaulted to 1920/1080/1000 when
absent or unparseable, `format` defaulted to "png" and validated to be "png"
or "jpeg", then the call into `ScreenshotService::take_screenshot` (the
format parameter is not passed on; GET and POST behave identically, so the
method dispatch is omitted). The success value is the result of
`take_screenshot`. -/
def handle_screenshot_request (env : Env) (params : QueryParams) :
    Except String (Except ScreenshotError (List Nat) × List Ev) :=
  match params.url with
  | none => .error "Missing required 'url' parameter"
  | some url =>
    let width := ((params.width).bind parseU32).getD 1920
    let height := ((params.height).bind parseU32).getD 1080
    let wait_time := ((params.wait).bind parseU64).getD 1000
    let format := (params.format).getD "png"
    if format ≠ "png" ∧ format ≠ "jpeg" then
      .error "Invalid format. Only 'png' and 'jpeg' are supported"
    else
      .ok (take_screenshot env url (some width) (some height) (some wait_time))

/-- Concrete oracle where every external step succeeds: the URL parses, the
first chrome path exists, every launch attempt spawns, and all CDP calls
succeed, returning the PNG signature bytes. -/
def envAllOk : Env where
  parseUrl := fun _ => none
  fsExists := fun p => p == "/opt/chromium/chrome"
  buildErr := fun _ => none
  spawnErr := fun _ => none
  newTabErr := none
  setViewportErr := none
  navigateErr := none
  waitNavErr := none
  captureErr := none
  captureData := [137, 80, 78, 71]

/-- Oracle where every spawn attempt fails with the same error. -/
def envSpawnFail : Env :=
  { envAllOk with spawnErr := fun _ => some "boom" }

/-- Oracle where the first two spawn attempts fail and the third succeeds. -/
def envSpawnFlaky : Env :=
  { envAllOk with spawnErr := fun n => if n < 3 then some "boom" else none }

/-- Oracle where the navigation CDP call fails. -/
def envNavFail : Env :=
  { envAllOk with navigateErr := some "net::ERR_NAME_NOT_RESOLVED" }

/-- Oracle where URL parsing fails, as `url::Url::parse` does on the empty
string. -/
def envBadUrl : Env :=
  { envAllOk with parseUrl := fun _ => some "relative URL without a base" }

/-- Query parameters with a non-numeric width, an absent height, a
non-numeric wait and an absent format. -/
def qparamsDefaults : QueryParams :=
  { url := some "https://example.com", width := some "abc", height := none,
    wait := some "12x", format := none }

/-- Associativity bridge for the formatted dimension messages: merging the
literal middle chunk of a `format!`-built string. -/
theorem msg_chunk (B T C A : String) (hA : B ++ T ++ C = A) (n t : String) :
    n ++ B ++ T ++ C ++ t ++ ")" = n ++ A ++ t ++ ")" := by
  rw [String.append_assoc n B T, String.append_assoc n (B ++ T) C, hA]

/-- Below the minimum, `validate_dimension` produces the InvalidUrl error
whose message names the dimension and the lower bound 320. -/
theorem validate_dimension_lt (v : Nat) (name : String) (h : v < 320) :
    validate_dimension v name = .error (.InvalidUrl
      (name ++ " must be at least 320 pixels (got " ++ toString v ++ ")")) := by
  simp only [validate_dimension, MIN_SIZE]
  rw [if_pos h]
  congr 2
  exact msg_chunk _ _ _ _ (by decide) name (toString v)

/-- Above the maximum, `validate_dimension` produces the InvalidUrl error
whose message names the dimension and the upper bound 3840. -/
theorem validate_dimension_gt (v : Nat) (name : String) (h : 3840 < v) :
    validate_dimension v name = .error (.InvalidUrl
      (name ++ " must be at most 3840 pixels (got " ++ toString v ++ ")")) := by
  simp only [validate_dimension, MIN_SIZE, MAX_SIZE]
  rw [if_neg (by omega), if_pos h]
  congr 2
  exact msg_chunk _ _ _ _ (by decide) name (toString v)

/-- Inside the closed range, `validate_dimension` returns the value unchanged. -/
theorem validate_dimension_ok (v : Nat) (name : String)
    (h1 : 320 ≤ v) (h2 : v ≤ 3840) :
    validate_dimension v name = .ok v := by
  simp only [validate_dimension, MIN_SIZE, MAX_SIZE]
  rw [if_neg (by omega), if_neg (by omega)]

/-- The retry loop only ever records launch attempts and inter-attempt
delays in its trace. -/
theorem launchGo_shape (env : Env) (m : Nat) :
    ∀ fuel attempt le ev, ev ∈ (launchGo env m fuel attempt le).2 →
      (∃ n, ev = Ev.launchAttempt n) ∨ ev = Ev.retryDelay := by
  intro fuel
  induction fuel with
  | zero => intro attempt le ev hm; simp [launchGo] at hm
  | succ k ih =>
    intro attempt le ev hm
    cases hb : env.buildErr attempt with
    | some e =>
      simp [launchGo, hb] at hm
      exact Or.inl ⟨attempt, hm⟩
    | none =>
      cases hs : env.spawnErr attempt with
      | none =>
        simp [launchGo, hb, hs] at hm
        exact Or.inl ⟨attempt, hm⟩
      | some e =>
        simp [launchGo, hb, hs] at hm
        rcases hm with hm | hm | hm
        · exact Or.inl ⟨attempt, hm⟩
        · exact Or.inr hm.2
        · exact ih _ _ _ hm

/-- Trace shape of `launch_browser_with_retry`: only launch attempts and
delays. -/
theorem launch_trace_shape (env : Env) (m : Nat) (ev : Ev)
    (h : ev ∈ (launch_browser_with_retry env m).2) :
    (∃ n, ev = Ev.launchAttempt n) ∨ ev = Ev.retryDelay :=
  launchGo_shape env m m 1 "" ev h

/-- When the locator returns a path, that path is among the checked paths. -/
theorem findChromeGo_mem (fs : String → Bool) :
    ∀ l p, (findChromeGo fs l).1 = some p → p ∈ (findChromeGo fs l).2 := by
  intro l
  induction l with
  | nil => intro p h; simp [findChromeGo] at h
  | cons q rest ih =>
    intro p h
    by_cases hq : fs q
    · simp [findChromeGo, hq] at h ⊢
      exact h.symm
    · simp [findChromeGo, hq] at h ⊢
      exact Or.inr (ih p h)

/-- Any capture request recorded by `capture_screenshot_internal` uses the
PNG format. -/
theorem capture_trace_png (env : Env) (url : String) (w h wt : Nat)
    (fmt : CaptureScreenshotFormatOption)
    (hm : Ev.captureCall fmt ∈ (capture_screenshot_internal env url w h wt).2) :
    fmt = CaptureScreenshotFormatOption.Png := by
  cases h1 : env.newTabErr with
  | some e => simp [capture_screenshot_internal, h1] at hm
  | none =>
  cases h2 : env.setViewportErr with
  | some e => simp [capture_screenshot_internal, h1, h2] at hm
  | none =>
  cases h3 : env.navigateErr with
  | some e => simp [capture_screenshot_internal, h1, h2, h3] at hm
  | none =>
  cases h4 : env.waitNavErr with
  | some e => simp [capture_screenshot_internal, h1, h2, h3, h4] at hm
  | none =>
  cases h5 : env.captureErr with
  | some e =>
    by_cases hwt : 0 < wt <;>
      simp [capture_screenshot_internal, h1, h2, h3, h4, h5, hwt] at hm <;>
      exact hm
  | none =>
    by_cases hwt : 0 < wt <;>
      simp [capture_screenshot_internal, h1, h2, h3, h4, h5, hwt] at hm <;>
      exact hm

/-- Any capture request recorded by `take_screenshot` uses the PNG format. -/
theorem take_trace_capture_png (env : Env) (url : String)
    (wd hg wt : Option Nat) (fmt : CaptureScreenshotFormatOption)
    (hm : Ev.captureCall fmt ∈ (take_screenshot env url wd hg wt).2) :
    fmt = CaptureScreenshotFormatOption.Png := by
  cases hp : env.parseUrl url with
  | some e => simp [take_screenshot, hp] at hm
  | none =>
  cases hf : (find_chrome_executable env.fsExists).1 with
  | none => simp [take_screenshot, hp, hf] at hm
  | some p =>
  cases hlr : (launch_browser_with_retry env 3).1 with
  | error e =>
    simp [take_screenshot, hp, hf, hlr] at hm
    rcases launch_trace_shape env 3 _ hm with ⟨n, hn⟩ | hn <;> exact Ev.noConfusion hn
  | ok u =>
  cases u
  cases hvw : validate_dimension (wd.getD 1920) "width" with
  | error e1 =>
    simp [take_screenshot, hp, hf, hlr, hvw] at hm
    rcases launch_trace_shape env 3 _ hm with ⟨n, hn⟩ | hn <;> exact Ev.noConfusion hn
  | ok vw =>
  cases hvh : validate_dimension (hg.getD 1080) "height" with
  | error e2 =>
    simp [take_screenshot, hp, hf, hlr, hvw, hvh] at hm
    rcases launch_trace_shape env 3 _ hm with ⟨n, hn⟩ | hn <;> exact Ev.noConfusion hn
  | ok vh =>
    simp [take_screenshot, hp, hf, hlr, hvw, hvh] at hm
    rcases hm with hm | hm
    · rcases launch_trace_shape env 3 _ hm with ⟨n, hn⟩ | hn <;> exact Ev.noConfusion hn
    · exact capture_trace_png env url vw vh (wt.getD 1000) fmt hm

/-- Claim C1 (counterexample): with every external step succeeding and
width 100 (below the minimum), `take_screenshot` does return an
InvalidInput-class failure, but the trace shows the executable location
check and a browser launch attempt were performed first, contradicting the
claim that dimension validation precedes the locate and launch steps. -/
theorem dim_validation_after_launch_cex :
    (take_screenshot envAllOk "https://example.com" (some 100) (some 1080) (some 0)).1 =
      .error (.InvalidUrl "width must be at least 320 pixels (got 100)")
    ∧ Ev.locateCheck "/opt/chromium/chrome" ∈
        (take_screenshot envAllOk "https://example.com" (some 100) (some 1080) (some 0)).2
    ∧ Ev.launchAttempt 1 ∈
        (take_screenshot envAllOk "https://example.com" (some 100) (some 1080) (some 0)).2 :=
  ⟨rfl, by decide, by decide⟩

/-- Claim C1 (amended): for every request whose width lies below the
minimum, `take_screenshot` returns an InvalidInput-class failure without
attempting any capture step, but only after executable location and browser
launch have been performed: dimension validation follows the launch step
and precedes the capture session. -/
theorem invalid_width_fails_after_launch (env : Env) (url : String)
    (w : Nat) (hgt wt : Option Nat) (p : String)
    (hp : env.parseUrl url = none)
    (hf : (find_chrome_executable env.fsExists).1 = some p)
    (hlr : (launch_browser_with_retry env 3).1 = .ok ())
    (hw : w < 320) :
    (take_screenshot env url (some w) hgt wt).1 =
      .error (.InvalidUrl ("width must be at least 320 pixels (got " ++ toString w ++ ")"))
    ∧ Ev.locateCheck p ∈ (take_screenshot env url (some w) hgt wt).2
    ∧ Ev.launched ∈ (take_screenshot env url (some w) hgt wt).2
    ∧ Ev.newTab ∉ (take_screenshot env url (some w) hgt wt).2 := by
  have hv : validate_dimension w "width" =
      .error (.InvalidUrl ("width" ++ " must be at least 320 pixels (got " ++
        toString w ++ ")")) := validate_dimension_lt w "width" hw
  have hmsg : ("width" : String) ++ " must be at least 320 pixels (got " =
      "width must be at least 320 pixels (got " := by decide
  refine ⟨?_, ?_, ?_, ?_⟩
  · simp only [take_screenshot, hp, hf, hlr, Option.getD_some, hv]
    rw [hmsg]
  · have hpmem : p ∈ (find_chrome_executable env.fsExists).2 :=
      findChromeGo_mem env.fsExists chromePaths p hf
    simp [take_screenshot, hp, hf, hlr, hv]
    exact Or.inl hpmem
  · simp [take_screenshot, hp, hf, hlr, hv]
  · intro hm
    simp [take_screenshot, hp, hf, hlr, hv] at hm
    rcases launch_trace_shape env 3 _ hm with ⟨n, hn⟩ | hn <;> exact Ev.noConfusion hn

/-- Witness for the amended claim C1 at a concrete input. -/
theorem invalid_width_fails_after_launch_witness :
    (take_screenshot envAllOk "https://example.com" (some 100) (some 1080) (some 0)).1 =
      .error (.InvalidUrl ("width must be at least 320 pixels (got " ++ toString 100 ++ ")"))
    ∧ Ev.locateCheck "/opt/chromium/chrome" ∈
        (take_screenshot envAllOk "https://example.com" (some 100) (some 1080) (some 0)).2
    ∧ Ev.launched ∈
        (take_screenshot envAllOk "https://example.com" (some 100) (some 1080) (some 0)).2
    ∧ Ev.newTab ∉
        (take_screenshot envAllOk "https://example.com" (some 100) (some 1080) (some 0)).2 :=
  invalid_width_fails_after_launch envAllOk "https://example.com" 100 (some 1080) (some 0)
    "/opt/chromium/chrome" rfl rfl rfl (by decide)

/-- Claim C2: for every execution of `take_screenshot` in which a browser
process handle is created (the trace contains `launched`), the handle is
released before return on every exit path: the last trace event is the
RAII drop that terminates the process. -/
theorem browser_released_on_all_paths (env : Env) (url : String)
    (w h wt : Option Nat)
    (hl : Ev.launched ∈ (take_screenshot env url w h wt).2) :
    ((take_screenshot env url w h wt).2).getLast? = some Ev.dropBrowser := by
  cases hp : env.parseUrl url with
  | some e => simp [take_screenshot, hp] at hl
  | none =>
  cases hf : (find_chrome_executable env.fsExists).1 with
  | none => simp [take_screenshot, hp, hf] at hl
  | some p =>
  cases hlr : (launch_browser_with_retry env 3).1 with
  | error e =>
    simp [take_screenshot, hp, hf, hlr] at hl
    rcases launch_trace_shape env 3 _ hl with ⟨n, hn⟩ | hn <;> exact Ev.noConfusion hn
  | ok u =>
  cases u
  cases hvw : validate_dimension (w.getD 1920) "width" with
  | error e1 =>
    simp only [take_screenshot, hp, hf, hlr, hvw]
    rw [List.getLast?_concat]
  | ok vw =>
  cases hvh : validate_dimension (h.getD 1080) "height" with
  | error e2 =>
    simp only [take_screenshot, hp, hf, hlr, hvw, hvh]
    rw [List.getLast?_concat]
  | ok vh =>
    simp only [take_screenshot, hp, hf, hlr, hvw, hvh]
    rw [List.getLast?_concat]

/-- Witness for claim C2 on a fully successful run. -/
theorem browser_released_on_all_paths_witness :
    ((take_screenshot envAllOk "https://example.com" (some 1920) (some 1080) (some 0)).2).getLast? =
      some Ev.dropBrowser :=
  browser_released_on_all_paths envAllOk "https://example.com" (some 1920) (some 1080)
    (some 0) (by decide)

/-- Claim C3: with bound 3 and build always succeeding, if every spawn
attempt fails then exactly 3 attempts are made, the failure carries the
last attempt error, and the delay runs exactly twice; if the spawn fails
twice then succeeds, success is returned on the third attempt and the
inter-attempt delay is invoked exactly twice. -/
theorem launch_retry_bound_spec (env : Env) (e1 e2 e3 : String)
    (hb1 : env.buildErr 1 = none) (hb2 : env.buildErr 2 = none)
    (hb3 : env.buildErr 3 = none)
    (h1 : env.spawnErr 1 = some e1) (h2 : env.spawnErr 2 = some e2) :
    (env.spawnErr 3 = some e3 →
      (launch_browser_with_retry env 3).1 =
        .error ("All 3 launch attempts failed. Last error: Attempt 3: " ++ e3)
      ∧ attemptsOf (launch_browser_with_retry env 3).2 = 3
      ∧ delaysOf (launch_browser_with_retry env 3).2 = 2)
  ∧ (env.spawnErr 3 = none →
      (launch_browser_with_retry env 3).1 = .ok ()
      ∧ (launch_browser_with_retry env 3).2 =
          [Ev.launchAttempt 1, Ev.retryDelay, Ev.launchAttempt 2, Ev.retryDelay,
            Ev.launchAttempt 3]
      ∧ attemptsOf (launch_browser_with_retry env 3).2 = 3
      ∧ delaysOf (launch_browser_with_retry env 3).2 = 2) := by
  constructor
  · intro h3
    have htr : (launch_browser_with_retry env 3).2 =
        [Ev.launchAttempt 1, Ev.retryDelay, Ev.launchAttempt 2, Ev.retryDelay,
          Ev.launchAttempt 3] := by
      simp [launch_browser_with_retry, launchGo, hb1, hb2, hb3, h1, h2, h3]
    refine ⟨?_, ?_, ?_⟩
    · simp [launch_browser_with_retry, launchGo, hb1, hb2, hb3, h1, h2, h3]
      rw [← String.append_assoc]
      congr 1
    · rw [htr]; rfl
    · rw [htr]; rfl
  · intro h3
    have htr : (launch_browser_with_retry env 3).2 =
        [Ev.launchAttempt 1, Ev.retryDelay, Ev.launchAttempt 2, Ev.retryDelay,
          Ev.launchAttempt 3] := by
      simp [launch_browser_with_retry, launchGo, hb1, hb2, hb3, h1, h2, h3]
    refine ⟨?_, htr, ?_, ?_⟩
    · simp [launch_browser_with_retry, launchGo, hb1, hb2, hb3, h1, h2, h3]
    · rw [htr]; rfl
    · rw [htr]; rfl

/-- Witness for claim C3: the exhaustion scenario and the
fail-twice-then-succeed scenario at concrete oracles. -/
theorem launch_retry_bound_spec_witness :
    ((launch_browser_with_retry envSpawnFail 3).1 =
        .error ("All 3 launch attempts failed. Last error: Attempt 3: " ++ "boom")
      ∧ attemptsOf (launch_browser_with_retry envSpawnFail 3).2 = 3
      ∧ delaysOf (launch_browser_with_retry envSpawnFail 3).2 = 2)
    ∧ ((launch_browser_with_retry envSpawnFlaky 3).1 = .ok ()
      ∧ (launch_browser_with_retry envSpawnFlaky 3).2 =
          [Ev.launchAttempt 1, Ev.retryDelay, Ev.launchAttempt 2, Ev.retryDelay,
            Ev.launchAttempt 3]
      ∧ attemptsOf (launch_browser_with_retry envSpawnFlaky 3).2 = 3
      ∧ delaysOf (launch_browser_with_retry envSpawnFlaky 3).2 = 2) :=
  ⟨(launch_retry_bound_spec envSpawnFail "boom" "boom" "boom" rfl rfl rfl rfl rfl).1 rfl,
   (launch_retry_bound_spec envSpawnFlaky "boom" "boom" "unused" rfl rfl rfl
      (by decide) (by decide)).2 (by decide)⟩

/-- Claim C4: regardless of inputs (including the validated format
parameter, which the request layer never forwards), every capture request
recorded by the capture step, by `take_screenshot`, or by a successful run
of the request handler uses the PNG raster encoding. -/
theorem capture_always_png :
    (∀ env url w h wt fmt,
        Ev.captureCall fmt ∈ (capture_screenshot_internal env url w h wt).2 →
        fmt = CaptureScreenshotFormatOption.Png)
  ∧ (∀ env url wd hg wt fmt,
        Ev.captureCall fmt ∈ (take_screenshot env url wd hg wt).2 →
        fmt = CaptureScreenshotFormatOption.Png)
  ∧ (∀ env params r fmt, handle_screenshot_request env params = .ok r →
        Ev.captureCall fmt ∈ r.2 → fmt = CaptureScreenshotFormatOption.Png) := by
  refine ⟨capture_trace_png, take_trace_capture_png, ?_⟩
  intro env params r fmt hok hm
  cases hu : params.url with
  | none => simp [handle_screenshot_request, hu] at hok
  | some url =>
    simp only [handle_screenshot_request, hu] at hok
    split at hok
    · exact Except.noConfusion hok
    · injection hok with hok
      subst hok
      exact take_trace_capture_png env url _ _ _ fmt hm

/-- Witness for claim C4: a successful run does request the PNG encoding. -/
theorem capture_always_png_witness :
    Ev.captureCall CaptureScreenshotFormatOption.Png ∈
      (take_screenshot envAllOk "https://example.com" (some 1920) (some 1080) (some 0)).2
    ∧ CaptureScreenshotFormatOption.Png = CaptureScreenshotFormatOption.Png :=
  ⟨by decide, capture_always_png.2.1 envAllOk "https://example.com" (some 1920) (some 1080)
    (some 0) CaptureScreenshotFormatOption.Png (by decide)⟩

/-- Claim C5: `validate_dimension` fails with an InvalidInput-class error
(the Rust code reuses the `InvalidUrl` variant) whose message names the
offending dimension and the violated bound exactly when the value lies
outside the closed range 320 to 3840, and returns any in-range value
unchanged. -/
theorem validate_dimension_spec (v : Nat) (name : String) :
    (v < 320 → validate_dimension v name = .error (.InvalidUrl
        (name ++ " must be at least 320 pixels (got " ++ toString v ++ ")")))
  ∧ (3840 < v → validate_dimension v name = .error (.InvalidUrl
        (name ++ " must be at most 3840 pixels (got " ++ toString v ++ ")")))
  ∧ (320 ≤ v → v ≤ 3840 → validate_dimension v name = .ok v)
  ∧ ((∃ m, validate_dimension v name = .error (.InvalidUrl m)) ↔
        (v < 320 ∨ 3840 < v)) := by
  refine ⟨validate_dimension_lt v name, validate_dimension_gt v name,
    validate_dimension_ok v name, ?_, ?_⟩
  · rintro ⟨m, hm⟩
    by_contra hc
    push_neg at hc
    rw [validate_dimension_ok v name (by omega) (by omega)] at hm
    exact Except.noConfusion hm
  · intro hvb
    rcases hvb with hlt | hgt
    · exact ⟨_, validate_dimension_lt v name hlt⟩
    · exact ⟨_, validate_dimension_gt v name hgt⟩

/-- Witness for claim C5 at width 100. -/
theorem validate_dimension_spec_witness :
    validate_dimension 100 "width" = .error (.InvalidUrl
      ("width" ++ " must be at least 320 pixels (got " ++ toString 100 ++ ")")) :=
  (validate_dimension_spec 100 "width").1 (by decide)

/-- Claim C6: whenever URL parsing fails, `take_screenshot` returns the
InvalidUrl failure carrying the parse error and its trace is empty: no
executable location check and no browser launch attempt occurs, so no
process-spawn side effect happens on invalid input. -/
theorem invalid_url_no_spawn (env : Env) (url e : String) (w h wt : Option Nat)
    (hp : env.parseUrl url = some e) :
    take_screenshot env url w h wt = (.error (.InvalidUrl e), []) := by
  simp [take_screenshot, hp]

/-- Witness for claim C6: the empty string does not parse as a URL. -/
theorem invalid_url_no_spawn_witness :
    take_screenshot envBadUrl "" (some 1920) (some 1080) (some 0) =
      (.error (.InvalidUrl "relative URL without a base"), []) :=
  invalid_url_no_spawn envBadUrl "" "relative URL without a base"
    (some 1920) (some 1080) (some 0) rfl

/-- Claim C7: when the navigation step fails, the resulting Navigation
error message is the formatted string containing the target URL as a
substring. -/
theorem navigation_error_contains_url (env : Env) (url : String)
    (w h wt : Nat) (e : String)
    (h1 : env.newTabErr = none) (h2 : env.setViewportErr = none)
    (h3 : env.navigateErr = some e) :
    (capture_screenshot_internal env url w h wt).1 =
      .error (.Navigation ("Failed to navigate to " ++ url ++ ": " ++ e))
    ∧ ∃ a b, ("Failed to navigate to " ++ url ++ ": " ++ e) = a ++ (url ++ b) := by
  refine ⟨by simp [capture_screenshot_internal, h1, h2, h3],
    ⟨"Failed to navigate to ", ": " ++ e, ?_⟩⟩
  rw [String.append_assoc, String.append_assoc]

/-- Witness for claim C7 at a concrete failing navigation. -/
theorem navigation_error_contains_url_witness :
    (capture_screenshot_internal envNavFail "https://example.com" 1920 1080 0).1 =
      .error (.Navigation ("Failed to navigate to " ++ "https://example.com" ++ ": " ++
        "net::ERR_NAME_NOT_RESOLVED"))
    ∧ ∃ a b, ("Failed to navigate to " ++ "https://example.com" ++ ": " ++
        "net::ERR_NAME_NOT_RESOLVED") = a ++ ("https://example.com" ++ b) :=
  navigation_error_contains_url envNavFail "https://example.com" 1920 1080 0
    "net::ERR_NAME_NOT_RESOLVED" rfl rfl rfl

/-- Claim C8: in the capture sequence the settle sleep of the caller
specified duration sits between the wait-for-navigation step and the
capture call, and it occurs exactly when the settle time is positive: a
settle time of 0 skips the sleep entirely. -/
theorem settle_sleep_iff_positive (env : Env) (url : String) (w h wt : Nat)
    (h1 : env.newTabErr = none) (h2 : env.setViewportErr = none)
    (h3 : env.navigateErr = none) (h4 : env.waitNavErr = none) :
    (capture_screenshot_internal env url w h wt).2 =
      [Ev.newTab, Ev.setViewport w h, Ev.navigate url, Ev.waitNavigated] ++
        (if wt > 0 then [Ev.settleSleep wt] else []) ++
        [Ev.captureCall CaptureScreenshotFormatOption.Png]
    ∧ ((∃ ms, Ev.settleSleep ms ∈ (capture_screenshot_internal env url w h wt).2) ↔
        0 < wt) := by
  have htr : (capture_screenshot_internal env url w h wt).2 =
      [Ev.newTab, Ev.setViewport w h, Ev.navigate url, Ev.waitNavigated] ++
        (if wt > 0 then [Ev.settleSleep wt] else []) ++
        [Ev.captureCall CaptureScreenshotFormatOption.Png] := by
    cases h5 : env.captureErr with
    | some e => simp [capture_screenshot_internal, h1, h2, h3, h4, h5]
    | none => simp [capture_screenshot_internal, h1, h2, h3, h4, h5]
  refine ⟨htr, ?_, ?_⟩
  · rintro ⟨ms, hms⟩
    rw [htr] at hms
    by_cases hwt : wt > 0
    · exact hwt
    · simp [hwt] at hms
  · intro hwt
    refine ⟨wt, ?_⟩
    rw [htr]
    simp [hwt]

/-- Witness for claim C8 at settle times 1000 and 0. -/
theorem settle_sleep_iff_positive_witness :
    ((capture_screenshot_internal envAllOk "https://example.com" 1920 1080 1000).2 =
        [Ev.newTab, Ev.setViewport 1920 1080, Ev.navigate "https://example.com",
          Ev.waitNavigated] ++
          (if 1000 > 0 then [Ev.settleSleep 1000] else []) ++
          [Ev.captureCall CaptureScreenshotFormatOption.Png]
      ∧ ((∃ ms, Ev.settleSleep ms ∈
          (capture_screenshot_internal envAllOk "https://example.com" 1920 1080 1000).2) ↔
          0 < 1000))
    ∧ ((capture_screenshot_internal envAllOk "https://example.com" 1920 1080 0).2 =
        [Ev.newTab, Ev.setViewport 1920 1080, Ev.navigate "https://example.com",
          Ev.waitNavigated] ++
          (if 0 > 0 then [Ev.settleSleep 0] else []) ++
          [Ev.captureCall CaptureScreenshotFormatOption.Png]
      ∧ ((∃ ms, Ev.settleSleep ms ∈
          (capture_screenshot_internal envAllOk "https://example.com" 1920 1080 0).2) ↔
          0 < 0)) :=
  ⟨settle_sleep_iff_positive envAllOk "https://example.com" 1920 1080 1000 rfl rfl rfl rfl,
   settle_sleep_iff_positive envAllOk "https://example.com" 1920 1080 0 rfl rfl rfl rfl⟩

/-- Claim C9: the executable locator checks its fixed ordered path list and
returns the first existing path without checking any later path; if no
listed path exists it returns not-found having checked the whole list; and
its result depends only on the filesystem state of the listed paths, so two
successive calls with an unchanged filesystem agree. -/
theorem find_chrome_spec :
    (∀ fs : String → Bool, fs "/opt/chromium/chrome" = true →
        find_chrome_executable fs = (some "/opt/chromium/chrome", ["/opt/chromium/chrome"]))
  ∧ (∀ fs : String → Bool, fs "/opt/chromium/chrome" = false → fs "/opt/chrome" = true →
        find_chrome_executable fs = (some "/opt/chrome", chromePaths))
  ∧ (∀ fs : String → Bool, fs "/opt/chromium/chrome" = false → fs "/opt/chrome" = false →
        find_chrome_executable fs = (none, chromePaths))
  ∧ (∀ fs fs2 : String → Bool, (∀ q ∈ chromePaths, fs q = fs2 q) →
        find_chrome_executable fs = find_chrome_executable fs2) := by
  refine ⟨?_, ?_, ?_, ?_⟩
  · intro fs h1
    simp [find_chrome_executable, chromePaths, findChromeGo, h1]
  · intro fs h1 h2
    simp [find_chrome_executable, chromePaths, findChromeGo, h1, h2]
  · intro fs h1 h2
    simp [find_chrome_executable, chromePaths, findChromeGo, h1, h2]
  · intro fs fs2 hagree
    have h1 := hagree "/opt/chromium/chrome" (by simp [chromePaths])
    have h2 := hagree "/opt/chrome" (by simp [chromePaths])
    simp [find_chrome_executable, chromePaths, findChromeGo, h1, h2]

/-- Witness for claim C9: a filesystem where only the first path exists. -/
theorem find_chrome_spec_witness :
    find_chrome_executable (fun p => p == "/opt/chromium/chrome") =
      (some "/opt/chromium/chrome", ["/opt/chromium/chrome"]) :=
  find_chrome_spec.1 (fun p => p == "/opt/chromium/chrome") (by decide)

/-- Claim C10: absent width, height and wait values are replaced by the
defaults 1920, 1080 and 1000 before validation and capture (substituting
the default yields the identical run), and the request layer applies the
same defaults for absent or non-numeric query parameters. -/
theorem defaults_substituted :
    (∀ env url hgt wt,
        take_screenshot env url none hgt wt = take_screenshot env url (some 1920) hgt wt)
  ∧ (∀ env url wd wt,
        take_screenshot env url wd none wt = take_screenshot env url wd (some 1080) wt)
  ∧ (∀ env url wd hgt,
        take_screenshot env url wd hgt none = take_screenshot env url wd hgt (some 1000))
  ∧ (∀ env params url, params.url = some url →
      (params.width = none ∨ ∃ s, params.width = some s ∧ parseU32 s = none) →
      (params.height = none ∨ ∃ s, params.height = some s ∧ parseU32 s = none) →
      (params.wait = none ∨ ∃ s, params.wait = some s ∧ parseU64 s = none) →
      params.format = none →
      handle_screenshot_request env params =
        .ok (take_screenshot env url (some 1920) (some 1080) (some 1000))) := by
  refine ⟨fun env url hgt wt => rfl, fun env url wd wt => rfl,
    fun env url wd hgt => rfl, ?_⟩
  intro env params url hu hw hh hwt hf
  have hw2 : params.width.bind parseU32 = none := by
    rcases hw with hw | ⟨s, hs, hps⟩
    · rw [hw]; rfl
    · rw [hs]; simpa using hps
  have hh2 : params.height.bind parseU32 = none := by
    rcases hh with hh | ⟨s, hs, hps⟩
    · rw [hh]; rfl
    · rw [hs]; simpa using hps
  have hwt2 : params.wait.bind parseU64 = none := by
    rcases hwt with hwt | ⟨s, hs, hps⟩
    · rw [hwt]; rfl
    · rw [hs]; simpa using hps
  simp [handle_screenshot_request, hu, hw2, hh2, hwt2, hf]

/-- Witness for claim C10: a request with a non-numeric width, an absent
height, a non-numeric wait and an absent format gets all three defaults. -/
theorem defaults_substituted_witness :
    handle_screenshot_request envAllOk qparamsDefaults =
      .ok (take_screenshot envAllOk "https://example.com" (some 1920) (some 1080) (some 1000)) :=
  defaults_substituted.2.2.2 envAllOk qparamsDefaults "https://example.com" rfl
    (Or.inr ⟨"abc", rfl, by decide⟩) (Or.inl rfl) (Or.inr ⟨"12x", rfl, by decide⟩) rfl
